import Mathlib

/-!
Verification development for the Food Wastage Management dashboard
(single source file app.py). The data-access core is embedded shallowly:

* SQLite cell values become the inductive type Val (string, integer, null);
* a pandas DataFrame becomes a structure of a column-name list and a list
  of rows, each row a list of Val;
* the filter engine apply_filters is translated statement by statement,
  with the pandas KeyError on a missing column modelled as Except.error;
* the query layer (run_query, run_write, load_table) is modelled by the
  statement (SQL text and bound parameters) it hands to the driver, and by
  the DataFrame construction run_query performs on the cursor result;
* the fixed SQL queries of the app (Browse Listings join, the analysis
  queries) are given relational semantics over an embedded database state.
-/

/-- Value stored in one cell of a query result: SQLite TEXT, INTEGER or NULL. -/
inductive Val where
  | s (x : String)
  | i (n : Int)
  | null
deriving DecidableEq

/-- Tabular query result: named columns plus rows, as pandas builds it from
the cursor description and fetchall in run_query. -/
structure DataFrame where
  cols : List String
  rows : List (List Val)
deriving DecidableEq

/-- Empty test of pandas: a DataFrame is empty when either axis has length 0. -/
def DataFrame.isEmptyDF (df : DataFrame) : Bool :=
  df.rows.isEmpty || df.cols.isEmpty

/-- Index of the first column with the given name, as pandas column lookup
resolves df[c] (the result sets of this app have pairwise distinct column
names, so the first occurrence is the occurrence). -/
def colIdx : List String → String → Option Nat
  | [], _ => none
  | a :: t, c => if a == c then some 0 else (colIdx t c).map (· + 1)

/-- Translation of the pandas row selection df[df[c] == v]: keeps the rows
whose cell in column c equals the string v; a missing column raises KeyError,
modelled as Except.error carrying the column name. -/
def DataFrame.filterEq (df : DataFrame) (c v : String) : Except String DataFrame :=
  match colIdx df.cols c with
  | none => Except.error c
  | some i => Except.ok ⟨df.cols, df.rows.filter (fun r => r.getD i Val.null == Val.s v)⟩

/-- The four sidebar filter selections f_city, f_provider_type, f_food_type,
f_meal_type; the sentinel value "All" means no predicate. -/
structure Filters where
  f_city : String
  f_provider_type : String
  f_food_type : String
  f_meal_type : String
deriving DecidableEq

/-- One conditional filtering statement of apply_filters: when the selection
differs from the sentinel, restrict the DataFrame on the given column. -/
def filterStep (active : Bool) (c v : String) (df : DataFrame) : Except String DataFrame :=
  if active then df.filterEq c v else Except.ok df

/-- Translation of apply_filters from app.py: return the input unchanged when
it is empty, otherwise apply the four equality filters in order (city against
column Location, then Provider_Type, Food_Type, Meal_Type). -/
def apply_filters (fs : Filters) (df : DataFrame) : Except String DataFrame :=
  if df.isEmptyDF then Except.ok df
  else
    Except.bind (filterStep (fs.f_city != "All") "Location" fs.f_city df) (fun df1 =>
    Except.bind (filterStep (fs.f_provider_type != "All") "Provider_Type" fs.f_provider_type df1) (fun df2 =>
    Except.bind (filterStep (fs.f_food_type != "All") "Food_Type" fs.f_food_type df2) (fun df3 =>
    filterStep (fs.f_meal_type != "All") "Meal_Type" fs.f_meal_type df3)))

/-- Cell of row r in the column named c (Val.null when the column is absent;
only used under the hypothesis that the column exists). -/
def cellAt (cols : List String) (r : List Val) (c : String) : Val :=
  match colIdx cols c with
  | some i => r.getD i Val.null
  | none => Val.null

/-- Predicate of a single filter: inactive filters accept every row, an
active one requires exact string equality in its column. -/
def stepPred (active : Bool) (c v : String) (cols : List String) (r : List Val) : Bool :=
  !active || (cellAt cols r c == Val.s v)

/-- Conjunction of the four filter predicates: a row passes exactly when
every active selection matches its column by exact string equality. -/
def matchesFilters (fs : Filters) (cols : List String) (r : List Val) : Bool :=
  stepPred (fs.f_city != "All") "Location" fs.f_city cols r &&
  stepPred (fs.f_provider_type != "All") "Provider_Type" fs.f_provider_type cols r &&
  stepPred (fs.f_food_type != "All") "Food_Type" fs.f_food_type cols r &&
  stepPred (fs.f_meal_type != "All") "Meal_Type" fs.f_meal_type cols r

/-- Row of the Providers table (Provider_ID primary key). -/
structure Provider where
  Provider_ID : Int
  Name : String
  «Type» : String
  Address : String
  City : String
  Contact : String
deriving DecidableEq

/-- Row of the Receivers table (Receiver_ID primary key). -/
structure Receiver where
  Receiver_ID : Int
  Name : String
  City : String
deriving DecidableEq

/-- Row of the Food_Listings table (Food_ID primary key). -/
structure FoodListing where
  Food_ID : Int
  Food_Name : String
  Quantity : Int
  Expiry_Date : String
  Location : String
  Food_Type : String
  Meal_Type : String
  Provider_ID : Int
deriving DecidableEq

/-- Row of the Claims table (Claim_ID primary key). -/
structure Claim where
  Claim_ID : Int
  Food_ID : Int
  Receiver_ID : Int
  Status : String
  Timestamp : String
deriving DecidableEq

/-- State of the four tables of food_wastage.db. -/
structure DB where
  providers : List Provider
  receivers : List Receiver
  food_listings : List FoodListing
  claims : List Claim
deriving DecidableEq

/-- Statement handed to the SQLite driver by cur.execute: the SQL text and
the tuple of bound parameter values. -/
structure Stmt where
  sql : String
  params : List Val
deriving DecidableEq

/-- Statement that run_query passes to cur.execute: the SQL string of the
caller verbatim, with the given values only in the parameter tuple. -/
def run_query_stmt (query : String) (params : List Val) : Stmt :=
  ⟨query, params⟩

/-- Statement that run_write passes to cur.execute: the SQL string of the
caller verbatim, with the given values only in the parameter tuple. -/
def run_write_stmt (query : String) (params : List Val) : Stmt :=
  ⟨query, params⟩

/-- Statement issued by load_table: the table name is interpolated into the
SQL text by an f-string, and no parameters are bound. -/
def load_table_stmt (table_name : String) : Stmt :=
  ⟨"SELECT * FROM " ++ table_name, []⟩

/-- The table names the app passes to load_table (lines 52 to 55 of app.py). -/
def app_table_names : List String :=
  ["Providers", "Receivers", "Food_Listings", "Claims"]

/-- The full-table SQL texts load_table can issue inside this app. -/
def app_table_sql : List String :=
  app_table_names.map (fun t => "SELECT * FROM " ++ t)

/-- DataFrame that run_query builds from the cursor after execution: column
names from cur.description when present, an empty column list otherwise, and
the fetched rows; a result with no rows is an empty DataFrame, not an error. -/
def run_query (description : Option (List String)) (fetched : List (List Val)) : DataFrame :=
  ⟨description.getD [], fetched⟩

/-- Column list of the Browse Listings join, read off its SELECT clause:
p.Type is selected under the alias Provider_Type. -/
def listings_cols : List String :=
  ["Food_ID", "Food_Name", "Quantity", "Expiry_Date", "Location", "Food_Type", "Meal_Type",
   "Provider_Name", "Provider_Type", "Provider_Contact"]

/-- Row of the Browse Listings join for food row f matched with provider p. -/
def listingsRow (f : FoodListing) (p : Provider) : List Val :=
  [Val.i f.Food_ID, Val.s f.Food_Name, Val.i f.Quantity, Val.s f.Expiry_Date,
   Val.s f.Location, Val.s f.Food_Type, Val.s f.Meal_Type,
   Val.s p.Name, Val.s p.«Type», Val.s p.Contact]

/-- Row of the Browse Listings join for food row f with no matching provider
(LEFT JOIN fills the provider columns with NULL). -/
def listingsRowNull (f : FoodListing) : List Val :=
  [Val.i f.Food_ID, Val.s f.Food_Name, Val.i f.Quantity, Val.s f.Expiry_Date,
   Val.s f.Location, Val.s f.Food_Type, Val.s f.Meal_Type,
   Val.null, Val.null, Val.null]

/-- Result of the Browse Listings query: Food_Listings LEFT JOIN Providers on
Provider_ID, with the columns of listings_cols. -/
def listings (db : DB) : DataFrame :=
  ⟨listings_cols,
   db.food_listings.flatMap (fun f =>
     let ps := db.providers.filter (fun p => p.Provider_ID == f.Provider_ID)
     if ps.isEmpty then [listingsRowNull f] else ps.map (listingsRow f))⟩

/-- Python dict insertion: an existing key keeps its position and gets the
new value, a new key is appended; the maps of this app are built from the
empty dict, so keys stay pairwise distinct. -/
def dictInsert (m : List (String × Int)) (k : String) (v : Int) : List (String × Int) :=
  if m.any (fun p => p.1 == k) then m.map (fun p => if p.1 == k then (k, v) else p)
  else m ++ [(k, v)]

/-- Python dict comprehension over a list of key-value pairs: entries are
inserted in list order, so a repeated key ends up with the value of its last
occurrence. -/
def dictOf (l : List (String × Int)) : List (String × Int) :=
  l.foldl (fun m p => dictInsert m p.1 p.2) []

/-- Display label of a receiver in the Make a Claim dropdown. -/
def rx_label (r : Receiver) : String :=
  r.Name ++ " (" ++ r.City ++ ")"

/-- Display label of a food listing in the Make a Claim dropdown. -/
def fx_label (f : FoodListing) : String :=
  f.Food_Name ++ " | " ++ f.Location ++ " (Qty: " ++ toString f.Quantity ++ ")"

/-- The rx_map dict comprehension: display label to Receiver_ID, built by
iterating the full Receivers table in scan order. -/
def rx_map (receivers : List Receiver) : List (String × Int) :=
  dictOf (receivers.map (fun r => (rx_label r, r.Receiver_ID)))

/-- The fx_map dict comprehension: display label to Food_ID, built by
iterating the full Food_Listings table in scan order. -/
def fx_map (food : List FoodListing) : List (String × Int) :=
  dictOf (food.map (fun f => (fx_label f, f.Food_ID)))

/-- The Make a Claim tab body: the selection widgets exist only under the
guard that both Receivers and Food_Listings are non-empty; inside the guard
the two label maps are built. -/
def make_claim_tab (db : DB) : Option (List (String × Int) × List (String × Int)) :=
  if !db.receivers.isEmpty && !db.food_listings.isEmpty then
    some (rx_map db.receivers, fx_map db.food_listings)
  else none

/-- Two-digit zero padding of strftime. -/
def pad2 (n : Nat) : String :=
  if n < 10 then "0" ++ toString n else toString n

/-- The strftime format string of the claim insert, for a wall-clock
instant with year, month, day, hour, minute, second fields. -/
def strftime_ymd_hms (y mo d h mi s : Nat) : String :=
  toString y ++ "-" ++ pad2 mo ++ "-" ++ pad2 d ++ " " ++
  pad2 h ++ ":" ++ pad2 mi ++ ":" ++ pad2 s

/-- Modelled rowid assignment of SQLite for an INTEGER PRIMARY KEY column
left unset by the INSERT: one more than the largest identifier in the table
(1 on an empty table); cur.lastrowid reports this value. -/
def next_rowid (rows : List Claim) : Int :=
  (rows.foldl (fun m c => max m c.Claim_ID) 0) + 1

/-- The Submit Claim handler: run_write of the INSERT INTO Claims statement
with the resolved Food_ID, the resolved Receiver_ID, the chosen status and
the formatted current instant; returns the new table state and lastrowid.
No availability or existence check is performed before the insert. -/
def make_claim (rows : List Claim) (food_id receiver_id : Int) (status : String)
    (y mo d h mi s : Nat) : List Claim × Int :=
  let cid := next_rowid rows
  (rows ++ [⟨cid, food_id, receiver_id, status, strftime_ymd_hms y mo d h mi s⟩], cid)

/-- Number of occurrences of a key in a list, the COUNT of one GROUP BY group. -/
def countOcc (l : List String) (k : String) : Nat :=
  (l.filter (fun x => x == k)).length

/-- Distinct values of a list in first-occurrence order, the GROUP BY keys. -/
def uniq (l : List String) : List String :=
  l.foldl (fun acc x => if acc.contains x then acc else acc ++ [x]) []

/-- Insertion into a list sorted by strictly greater count first. -/
def insertDesc (x : String × Nat) : List (String × Nat) → List (String × Nat)
  | [] => [x]
  | y :: ys => if x.2 > y.2 then x :: y :: ys else y :: insertDesc x ys

/-- Sort key-count pairs by descending count (ORDER BY count DESC; SQLite
leaves the order of ties unspecified). -/
def sortDesc (l : List (String × Nat)) : List (String × Nat) :=
  l.foldr insertDesc []

/-- The Claims Status analysis query: SELECT Status,
COUNT(*)*100.0/(SELECT COUNT(*) FROM Claims) AS Percentage FROM Claims
GROUP BY Status, with the REAL division modelled exactly in the rationals. -/
def claims_status_pct (db : DB) : List (String × ℚ) :=
  let statuses := db.claims.map (fun c => c.Status)
  (uniq statuses).map (fun s =>
    (s, ((countOcc statuses s : ℚ) * 100) / ((db.claims.length : ℚ))))

/-- The Top Meal Types Claimed analysis query: inner join of Food_Listings
and Claims on Food_ID, grouped by Meal_Type with COUNT(*), ordered by the
count descending. -/
def top_meal_types_claimed (db : DB) : DataFrame :=
  let meals := db.food_listings.flatMap (fun f =>
    (db.claims.filter (fun c => c.Food_ID == f.Food_ID)).map (fun _ => f.Meal_Type))
  let grouped := sortDesc ((uniq meals).map (fun m => (m, countOcc meals m)))
  ⟨["Meal_Type", "Total_Claims"], grouped.map (fun p => [Val.s p.1, Val.i (p.2 : Int)])⟩

lemma colIdx_mem (c : String) (cols : List String) (h : c ∈ cols) :
    ∃ i, colIdx cols c = some i := by
  induction cols with
  | nil => simp at h
  | cons a t ih =>
    by_cases hac : a = c
    · exact ⟨0, by simp [colIdx, hac]⟩
    · have hct : c ∈ t := by
        rcases List.mem_cons.mp h with h1 | h1
        · exact absurd h1.symm hac
        · exact h1
      obtain ⟨i, hi⟩ := ih hct
      exact ⟨i + 1, by simp [colIdx, hac, hi]⟩

lemma filterEq_of_mem (cols : List String) (rows : List (List Val)) (c v : String)
    (h : c ∈ cols) :
    DataFrame.filterEq ⟨cols, rows⟩ c v =
      Except.ok ⟨cols, rows.filter (fun r => cellAt cols r c == Val.s v)⟩ := by
  obtain ⟨i, hi⟩ := colIdx_mem c cols h
  simp [DataFrame.filterEq, cellAt, hi]

lemma filterStep_ok (active : Bool) (c v : String) (cols : List String)
    (rows : List (List Val)) (h : active = true → c ∈ cols) :
    filterStep active c v ⟨cols, rows⟩ =
      Except.ok ⟨cols, rows.filter (fun r => stepPred active c v cols r)⟩ := by
  cases active with
  | false => simp [filterStep, stepPred]
  | true => simp [filterStep, stepPred, filterEq_of_mem cols rows c v (h rfl)]

lemma and_reorder4 : ∀ a b c d : Bool, (d && c && b && a) = (a && b && c && d) := by
  decide

lemma apply_filters_eq (fs : Filters) (df : DataFrame)
    (h1 : fs.f_city ≠ "All" → "Location" ∈ df.cols)
    (h2 : fs.f_provider_type ≠ "All" → "Provider_Type" ∈ df.cols)
    (h3 : fs.f_food_type ≠ "All" → "Food_Type" ∈ df.cols)
    (h4 : fs.f_meal_type ≠ "All" → "Meal_Type" ∈ df.cols) :
    apply_filters fs df =
      Except.ok ⟨df.cols, df.rows.filter (matchesFilters fs df.cols)⟩ := by
  obtain ⟨cols, rows⟩ := df
  simp only at h1 h2 h3 h4 ⊢
  unfold apply_filters
  by_cases hemp : (DataFrame.mk cols rows).isEmptyDF
  · rw [if_pos hemp]
    have hemp2 : rows = [] ∨ cols = [] := by
      simpa [DataFrame.isEmptyDF, List.isEmpty_iff] using hemp
    rcases hemp2 with hr | hc
    · subst hr; simp
    · subst hc
      have hc1 : fs.f_city = "All" := by
        by_contra hne; exact absurd (h1 hne) (List.not_mem_nil _)
      have hc2 : fs.f_provider_type = "All" := by
        by_contra hne; exact absurd (h2 hne) (List.not_mem_nil _)
      have hc3 : fs.f_food_type = "All" := by
        by_contra hne; exact absurd (h3 hne) (List.not_mem_nil _)
      have hc4 : fs.f_meal_type = "All" := by
        by_contra hne; exact absurd (h4 hne) (List.not_mem_nil _)
      have hall : ∀ r ∈ rows, matchesFilters fs [] r = true := by
        intro r _
        simp [matchesFilters, stepPred, hc1, hc2, hc3, hc4]
      rw [List.filter_eq_self.mpr hall]
  · rw [if_neg hemp]
    have m1 : (fs.f_city != "All") = true → "Location" ∈ cols := by
      intro hb; exact h1 (by simpa using hb)
    have m2 : (fs.f_provider_type != "All") = true → "Provider_Type" ∈ cols := by
      intro hb; exact h2 (by simpa using hb)
    have m3 : (fs.f_food_type != "All") = true → "Food_Type" ∈ cols := by
      intro hb; exact h3 (by simpa using hb)
    have m4 : (fs.f_meal_type != "All") = true → "Meal_Type" ∈ cols := by
      intro hb; exact h4 (by simpa using hb)
    rw [filterStep_ok _ _ _ _ _ m1]
    simp only [Except.bind]
    rw [filterStep_ok _ _ _ _ _ m2]
    simp only [Except.bind]
    rw [filterStep_ok _ _ _ _ _ m3]
    simp only [Except.bind]
    rw [filterStep_ok _ _ _ _ _ m4]
    rw [List.filter_filter, List.filter_filter, List.filter_filter]
    refine congrArg Except.ok (congrArg (DataFrame.mk cols) ?_)
    apply List.filter_congr
    intro r _
    simp only [matchesFilters]
    exact and_reorder4 _ _ _ _

/-- C1: for every input table and predicate set in which every active
predicate has its column in the input schema, apply_filters returns exactly
the rows whose column values equal every active predicate value, matching
by exact string equality combined by logical AND (sound and lossless). -/
theorem apply_filters_correct (fs : Filters) (df : DataFrame)
    (h1 : fs.f_city ≠ "All" → "Location" ∈ df.cols)
    (h2 : fs.f_provider_type ≠ "All" → "Provider_Type" ∈ df.cols)
    (h3 : fs.f_food_type ≠ "All" → "Food_Type" ∈ df.cols)
    (h4 : fs.f_meal_type ≠ "All" → "Meal_Type" ∈ df.cols) :
    apply_filters fs df =
      Except.ok ⟨df.cols, df.rows.filter (matchesFilters fs df.cols)⟩ :=
  apply_filters_eq fs df h1 h2 h3 h4

/-- Witness for C1 at a concrete table and a concrete active city filter. -/
theorem apply_filters_correct_witness :
    apply_filters ⟨"Delhi", "All", "All", "All"⟩
        ⟨["Location"], [[Val.s "Delhi"], [Val.s "Mumbai"]]⟩ =
      Except.ok ⟨["Location"], [[Val.s "Delhi"]]⟩ := by
  have h := apply_filters_correct ⟨"Delhi", "All", "All", "All"⟩
    ⟨["Location"], [[Val.s "Delhi"], [Val.s "Mumbai"]]⟩
    (by decide) (by decide) (by decide) (by decide)
  rw [h]
  rfl

/-- C4: with every selection set to the sentinel value All, apply_filters is
the identity on every input table, in row count and content. -/
theorem apply_filters_all_sentinel (df : DataFrame) :
    apply_filters ⟨"All", "All", "All", "All"⟩ df = Except.ok df := by
  have hb : (("All" : String) != "All") = false := by decide
  unfold apply_filters
  split
  · rfl
  · simp [filterStep, hb, Except.bind]

/-- C5: on an empty input table apply_filters short-circuits to the empty
result for every predicate set, including selections whose column is absent
from the schema; no lookup error is raised. -/
theorem apply_filters_empty_input (fs : Filters) (cols : List String) :
    apply_filters fs ⟨cols, []⟩ = Except.ok ⟨cols, []⟩ := by
  simp [apply_filters, DataFrame.isEmptyDF]

/-- C2 counterexample: on a concrete database state the Browse Listings
query result does contain the Provider_Type column (the SELECT clause reads
p.Type AS Provider_Type), contradicting the claim that its column set
excludes Provider_Type for every database state. -/
theorem listings_provider_type_counterexample :
    "Provider_Type" ∈ (listings ⟨[], [], [], []⟩).cols := by
  decide

/-- C2 amended: the Browse Listings join selects p.Type under the alias
Provider_Type, so for every database state Provider_Type is a column of the
query result; consequently applying the sidebar filters to this result never
raises a missing-column lookup error, and an active Provider_Type predicate
filters the rows normally rather than being a silent no-op. -/
theorem listings_has_provider_type (db : DB) (fs : Filters) :
    "Provider_Type" ∈ (listings db).cols ∧
      ∃ out, apply_filters fs (listings db) = Except.ok out := by
  constructor
  · show "Provider_Type" ∈ listings_cols
    decide
  · exact ⟨_, apply_filters_eq fs (listings db)
      (fun _ => by show "Location" ∈ listings_cols; decide)
      (fun _ => by show "Provider_Type" ∈ listings_cols; decide)
      (fun _ => by show "Food_Type" ∈ listings_cols; decide)
      (fun _ => by show "Meal_Type" ∈ listings_cols; decide)⟩

/-- C3 counterexample: two load_table runs differing only in the
caller-supplied table name execute different SQL text, because load_table
interpolates the table name into the statement with an f-string. -/
theorem load_table_sql_counterexample :
    (load_table_stmt "Providers").sql ≠ (load_table_stmt "Receivers").sql := by
  decide

/-- C3 amended: run_query and run_write execute exactly the SQL string they
are given, with every value travelling in the bound parameter tuple, so
their executed SQL text is independent of the supplied values; load_table
interpolates its table-name argument into the SQL text, but every load_table
call in the app passes one of the four fixed literal table names, so the
text it executes is always drawn from the fixed set app_table_sql and never
carries a user-supplied value. -/
theorem query_layer_param_binding :
    (∀ (q : String) (p : List Val), (run_query_stmt q p).sql = q) ∧
    (∀ (q : String) (p : List Val), (run_write_stmt q p).sql = q) ∧
    (∀ t, t ∈ app_table_names → (load_table_stmt t).sql ∈ app_table_sql) := by
  refine ⟨fun q p => rfl, fun q p => rfl, fun t ht => ?_⟩
  exact List.mem_map_of_mem _ ht

/-- Witness for the C3 amended theorem: the load_table call on the literal
name Claims issues one of the four fixed SQL texts. -/
theorem query_layer_param_binding_witness :
    (load_table_stmt "Claims").sql ∈ app_table_sql :=
  query_layer_param_binding.2.2 "Claims" (by decide)

/-- C6: for every prior table state, resolved Food_ID, resolved Receiver_ID
and status among Pending, Completed, Cancelled, the Submit Claim handler
appends exactly one row to Claims carrying those values and the wall-clock
instant formatted as YYYY-MM-DD HH:MM:SS, the returned lastrowid equals the
identifier of that new row, and every prior row is kept unchanged; no
availability or existence check constrains the inputs. -/
theorem make_claim_correct (rows : List Claim) (fid rid : Int) (status : String)
    (y mo d h mi s : Nat)
    (_hs : status = "Pending" ∨ status = "Completed" ∨ status = "Cancelled") :
    (make_claim rows fid rid status y mo d h mi s).1 =
      rows ++ [⟨(make_claim rows fid rid status y mo d h mi s).2, fid, rid, status,
               strftime_ymd_hms y mo d h mi s⟩] ∧
    (make_claim rows fid rid status y mo d h mi s).1.length = rows.length + 1 ∧
    (make_claim rows fid rid status y mo d h mi s).2 = next_rowid rows := by
  refine ⟨rfl, by simp [make_claim], rfl⟩

/-- Witness for C6: inserting a Pending claim into an empty Claims table. -/
theorem make_claim_correct_witness :
    (make_claim [] 5 7 "Pending" 2025 1 2 3 4 5).1 =
      [] ++ [⟨(make_claim [] 5 7 "Pending" 2025 1 2 3 4 5).2, 5, 7, "Pending",
             strftime_ymd_hms 2025 1 2 3 4 5⟩] :=
  (make_claim_correct [] 5 7 "Pending" 2025 1 2 3 4 5 (Or.inl rfl)).1

lemma flatMap_nil_fun {α β : Type} (l : List α) :
    l.flatMap (fun _ => ([] : List β)) = [] := by
  induction l <;> simp_all

/-- C7: run_query turns a statement yielding no rows, or a cursor with no
result-set columns, into an empty DataFrame instead of an error; in
particular the Top Meal Types Claimed analysis on a database whose Claims
table is empty returns an empty result. -/
theorem run_query_returns_empty (d : Option (List String)) (db : DB)
    (h : db.claims = []) :
    run_query d [] = ⟨d.getD [], []⟩ ∧
    (run_query none []).cols = [] ∧
    (top_meal_types_claimed db).rows = [] := by
  refine ⟨rfl, rfl, ?_⟩
  simp [top_meal_types_claimed, h, flatMap_nil_fun, uniq, sortDesc]

/-- Witness for C7 on the empty database and a concrete description. -/
theorem run_query_returns_empty_witness :
    (top_meal_types_claimed ⟨[], [], [], []⟩).rows = [] :=
  (run_query_returns_empty (some ["Meal_Type", "Total_Claims"]) ⟨[], [], [], []⟩ rfl).2.2

/-- Claims table holding exactly the statuses Pending, Pending, Completed. -/
def c8_db : DB :=
  ⟨[], [], [],
   [⟨1, 10, 20, "Pending", "2025-01-01 09:00:00"⟩,
    ⟨2, 11, 21, "Pending", "2025-01-01 10:00:00"⟩,
    ⟨3, 12, 22, "Completed", "2025-01-01 11:00:00"⟩]⟩

/-- C8: on a Claims table with statuses Pending, Pending, Completed the
Claims Status analysis yields one row per status, each percentage equal to
the status count times 100 divided by the total claim count, hence within
two-decimal tolerance of 66.67 for Pending and 33.33 for Completed. -/
theorem claims_status_pct_c8 :
    claims_status_pct c8_db = [("Pending", 200 / 3), ("Completed", 100 / 3)] ∧
    (200 : ℚ) / 3 = 2 * 100 / 3 ∧ (100 : ℚ) / 3 = 1 * 100 / 3 ∧
    |(200 : ℚ) / 3 - 66.67| ≤ 0.01 ∧ |(100 : ℚ) / 3 - 33.33| ≤ 0.01 := by
  refine ⟨?_, by norm_num, by norm_num, ?_, ?_⟩
  · have hne : ¬("Completed" = "Pending") := by decide
    have h2 : (List.filter (fun x => x == "Completed")
        ["Pending", "Pending", "Completed"]).length = 1 := by decide
    norm_num [claims_status_pct, c8_db, uniq, countOcc, hne, h2]
  · rw [abs_le]; constructor <;> norm_num
  · rw [abs_le]; constructor <;> norm_num


lemma lookup_cons_self (k : String) (v0 : Int) (t : List (String × Int)) :
    ((k, v0) :: t).lookup k = some v0 := by
  simp [List.lookup_cons]

lemma lookup_cons_ne (k k0 : String) (v0 : Int) (t : List (String × Int)) (h : k ≠ k0) :
    ((k0, v0) :: t).lookup k = t.lookup k := by
  have hb : (k == k0) = false := beq_eq_false_iff_ne.mpr h
  simp [List.lookup_cons, hb]

lemma lookup_append (l1 l2 : List (String × Int)) (k : String) :
    (l1 ++ l2).lookup k = (l1.lookup k).or (l2.lookup k) := by
  induction l1 with
  | nil => simp
  | cons p t ih =>
    obtain ⟨k0, v0⟩ := p
    by_cases hk : k = k0
    · subst hk
      rw [List.cons_append, lookup_cons_self, lookup_cons_self]
      simp
    · rw [List.cons_append, lookup_cons_ne _ _ _ _ hk, lookup_cons_ne _ _ _ _ hk, ih]

lemma lookup_eq_none_of_forall (m : List (String × Int)) (k : String)
    (h : ∀ p ∈ m, p.1 ≠ k) : m.lookup k = none := by
  induction m with
  | nil => simp
  | cons p t ih =>
    obtain ⟨k0, v0⟩ := p
    have hk : k ≠ k0 := fun he => (h (k0, v0) (by simp)) he.symm
    rw [lookup_cons_ne _ _ _ _ hk]
    exact ih (fun q hq => h q (by simp [hq]))

lemma lookup_map_replace (m : List (String × Int)) (k : String) (v : Int)
    (hany : m.any (fun p => p.1 == k) = true) :
    (m.map (fun p => if p.1 == k then (k, v) else p)).lookup k = some v := by
  induction m with
  | nil => simp at hany
  | cons p t ih =>
    obtain ⟨k0, v0⟩ := p
    by_cases hk : k0 = k
    · subst hk
      simp only [List.map_cons, beq_self_eq_true, if_true]
      exact lookup_cons_self _ _ _
    · have hb : (k0 == k) = false := beq_eq_false_iff_ne.mpr hk
      have hany2 : t.any (fun p => p.1 == k) = true := by
        simpa [hb] using hany
      have hk2 : k ≠ k0 := fun he => hk he.symm
      simp only [List.map_cons, hb, Bool.false_eq_true, if_false]
      rw [lookup_cons_ne _ _ _ _ hk2]
      exact ih hany2

lemma lookup_map_replace_ne (m : List (String × Int)) (k k2 : String) (v : Int)
    (hne : k2 ≠ k) :
    (m.map (fun p => if p.1 == k then (k, v) else p)).lookup k2 = m.lookup k2 := by
  induction m with
  | nil => simp
  | cons p t ih =>
    obtain ⟨k0, v0⟩ := p
    by_cases hk : k0 = k
    · subst hk
      simp only [List.map_cons, beq_self_eq_true, if_true]
      rw [lookup_cons_ne _ _ _ _ hne]
      by_cases hk2 : k2 = k0
      · exact absurd hk2 hne
      · rw [lookup_cons_ne _ _ _ _ hk2, ih]
    · have hb : (k0 == k) = false := beq_eq_false_iff_ne.mpr hk
      simp only [List.map_cons, hb, Bool.false_eq_true, if_false]
      by_cases hk2 : k2 = k0
      · subst hk2
        rw [lookup_cons_self, lookup_cons_self]
      · rw [lookup_cons_ne _ _ _ _ hk2, lookup_cons_ne _ _ _ _ hk2, ih]

lemma dictInsert_lookup (m : List (String × Int)) (k k2 : String) (v : Int) :
    (dictInsert m k v).lookup k2 = if k2 = k then some v else m.lookup k2 := by
  unfold dictInsert
  by_cases hany : m.any (fun p => p.1 == k) = true
  · rw [if_pos hany]
    by_cases hk : k2 = k
    · subst hk; rw [if_pos rfl]; exact lookup_map_replace m k2 v hany
    · rw [if_neg hk]; exact lookup_map_replace_ne m k k2 v hk
  · rw [if_neg hany, lookup_append]
    by_cases hk : k2 = k
    · subst hk
      have hnone : m.lookup k2 = none := by
        apply lookup_eq_none_of_forall
        intro p hp hpk
        exact hany (List.any_eq_true.mpr ⟨p, hp, by simp [hpk]⟩)
      rw [if_pos rfl, hnone, lookup_cons_self]
      rfl
    · rw [if_neg hk, lookup_cons_ne _ _ _ _ hk]
      simp

lemma dictOf_go (l : List (String × Int)) : ∀ (m : List (String × Int)) (k : String),
    (l.foldl (fun m p => dictInsert m p.1 p.2) m).lookup k =
      ((l.reverse).lookup k).or (m.lookup k) := by
  induction l with
  | nil => intro m k; simp
  | cons p t ih =>
    intro m k
    obtain ⟨k1, v1⟩ := p
    simp only [List.foldl_cons]
    rw [ih, List.reverse_cons, lookup_append, dictInsert_lookup, Option.or_assoc]
    by_cases hk : k = k1
    · subst hk
      rw [if_pos rfl, lookup_cons_self]
      simp
    · rw [if_neg hk, lookup_cons_ne _ _ _ _ hk]
      rfl

lemma dictOf_lookup (l : List (String × Int)) (k : String) :
    (dictOf l).lookup k = (l.reverse).lookup k := by
  rw [dictOf, dictOf_go]
  simp

lemma lookup_isSome_of_mem_keys (m : List (String × Int)) (k : String)
    (h : k ∈ m.map Prod.fst) : (m.lookup k).isSome = true := by
  induction m with
  | nil => simp at h
  | cons p t ih =>
    obtain ⟨k0, v0⟩ := p
    by_cases hk : k = k0
    · subst hk
      rw [lookup_cons_self]
      rfl
    · have hmem : k ∈ t.map Prod.fst := by
        rcases List.mem_cons.mp h with h1 | h1
        · exact absurd h1 hk
        · exact h1
      rw [lookup_cons_ne _ _ _ _ hk]
      exact ih hmem

lemma dictInsert_length (m : List (String × Int)) (k : String) (v : Int) :
    m.length ≤ (dictInsert m k v).length := by
  unfold dictInsert
  split <;> simp

lemma dictOf_go_length (l : List (String × Int)) : ∀ m : List (String × Int),
    m.length ≤ (l.foldl (fun m p => dictInsert m p.1 p.2) m).length := by
  induction l with
  | nil => intro m; simp
  | cons p t ih =>
    intro m
    exact le_trans (dictInsert_length m p.1 p.2) (ih _)

lemma dictOf_ne_nil (l : List (String × Int)) (h : l ≠ []) : dictOf l ≠ [] := by
  obtain ⟨p, t, rfl⟩ := List.exists_cons_of_ne_nil h
  intro hnil
  have h1 : 1 ≤ (dictOf (p :: t)).length := by
    have hstep : (dictInsert [] p.1 p.2).length = 1 := by simp [dictInsert]
    calc 1 = (dictInsert [] p.1 p.2).length := hstep.symm
    _ ≤ (dictOf (p :: t)).length := by
        rw [dictOf]
        simp only [List.foldl_cons]
        exact dictOf_go_length t _
  rw [hnil] at h1
  simp at h1

/-- C9: the Make a Claim tab builds its widgets only under the guard that
both Receivers and Food_Listings are non-empty; whenever the guard passes,
the two label maps are non-empty and every selectable dropdown label
resolves to an identifier without a failed lookup, and whenever either
table is empty no claim-creation context exists at all. -/
theorem make_claim_tab_guard (db : DB) :
    ((db.receivers = [] ∨ db.food_listings = []) → make_claim_tab db = none) ∧
    (∀ rm fm, make_claim_tab db = some (rm, fm) →
      rm ≠ [] ∧ fm ≠ [] ∧
      (∀ k, k ∈ rm.map Prod.fst → (rm.lookup k).isSome = true) ∧
      (∀ k, k ∈ fm.map Prod.fst → (fm.lookup k).isSome = true)) := by
  constructor
  · intro h
    unfold make_claim_tab
    rcases h with h | h <;> simp [h]
  · intro rm fm hsome
    unfold make_claim_tab at hsome
    by_cases hr : db.receivers.isEmpty
    · simp [hr] at hsome
    · by_cases hf : db.food_listings.isEmpty
      · simp [hr, hf] at hsome
      · simp only [hr, hf, Bool.not_false, Bool.and_self, if_true, Option.some.injEq,
          Prod.mk.injEq] at hsome
        obtain ⟨h1, h2⟩ := hsome
        subst h1
        subst h2
        have hrne : db.receivers ≠ [] := by simpa [List.isEmpty_iff] using hr
        have hfne : db.food_listings ≠ [] := by simpa [List.isEmpty_iff] using hf
        refine ⟨?_, ?_, fun k hk => lookup_isSome_of_mem_keys _ _ hk,
          fun k hk => lookup_isSome_of_mem_keys _ _ hk⟩
        · apply dictOf_ne_nil
          simpa using hrne
        · apply dictOf_ne_nil
          simpa using hfne

/-- Witness for C9: on the empty database the Make a Claim form is absent. -/
theorem make_claim_tab_guard_witness :
    make_claim_tab ⟨[], [], [], []⟩ = none :=
  (make_claim_tab_guard ⟨[], [], [], []⟩).1 (Or.inl rfl)

lemma dictOf_dup_last (m1 m2 m3 : List (String × Int)) (k : String) (v1 v2 : Int)
    (h3 : ∀ p ∈ m3, p.1 ≠ k) :
    (dictOf (m1 ++ [(k, v1)] ++ m2 ++ [(k, v2)] ++ m3)).lookup k = some v2 := by
  rw [dictOf_lookup]
  have h3r : (m3.reverse).lookup k = none :=
    lookup_eq_none_of_forall _ _ (fun p hp => h3 p (List.mem_reverse.mp hp))
  simp [List.reverse_append, lookup_append, h3r, lookup_cons_self]

/-- C10: the label maps key on the display label while scanning the table in
order, so when an earlier and a later row carry the same label (and no row
after the later one does), looking the label up yields the identifier of the
later row, for receivers and for food items alike; the earlier identifier is
no longer reachable through that label. -/
theorem dup_label_later_wins
    (A1 A2 A3 : List Receiver) (r1 r2 : Receiver)
    (B1 B2 B3 : List FoodListing) (g1 g2 : FoodListing)
    (hr : rx_label r1 = rx_label r2)
    (hr3 : ∀ r ∈ A3, rx_label r ≠ rx_label r2)
    (hf : fx_label g1 = fx_label g2)
    (hf3 : ∀ g ∈ B3, fx_label g ≠ fx_label g2) :
    (rx_map (A1 ++ [r1] ++ A2 ++ [r2] ++ A3)).lookup (rx_label r1) =
      some r2.Receiver_ID ∧
    (fx_map (B1 ++ [g1] ++ B2 ++ [g2] ++ B3)).lookup (fx_label g1) =
      some g2.Food_ID := by
  constructor
  · rw [rx_map]
    simp only [List.map_append, List.map_cons, List.map_nil]
    rw [hr]
    have h3p : ∀ p ∈ List.map (fun r => (rx_label r, r.Receiver_ID)) A3,
        p.1 ≠ rx_label r2 := by
      intro p hp
      obtain ⟨r, hrA, rfl⟩ := List.mem_map.mp hp
      exact hr3 r hrA
    exact dictOf_dup_last _ _ _ _ _ _ h3p
  · rw [fx_map]
    simp only [List.map_append, List.map_cons, List.map_nil]
    rw [hf]
    have h3p : ∀ p ∈ List.map (fun g => (fx_label g, g.Food_ID)) B3,
        p.1 ≠ fx_label g2 := by
      intro p hp
      obtain ⟨g, hgB, rfl⟩ := List.mem_map.mp hp
      exact hf3 g hgB
    exact dictOf_dup_last _ _ _ _ _ _ h3p

/-- Witness for C10: two receivers with identical Name and City and two food
items with identical Food_Name, Location and Quantity; each label resolves
to the identifier of the later duplicate. -/
theorem dup_label_later_wins_witness :
    (rx_map [⟨1, "Asha", "Delhi"⟩, ⟨2, "Asha", "Delhi"⟩]).lookup
        (rx_label ⟨1, "Asha", "Delhi"⟩) = some 2 := by
  have h := (dup_label_later_wins [] [] [] ⟨1, "Asha", "Delhi"⟩ ⟨2, "Asha", "Delhi"⟩
      [] [] [] ⟨1, "Rice", 5, "2025-01-01", "Delhi", "Veg", "Lunch", 1⟩
      ⟨2, "Rice", 5, "2025-02-02", "Delhi", "Veg", "Dinner", 3⟩
      rfl (by simp) rfl (by simp)).1
  simpa using h
